import Mathlib

/-!
Shallow embedding of the ONS API client (src/src/api/ons-client.ts) and
verification of its error-normalization and fallback behaviour.

The transport is modelled as an oracle mapping each request URL to either a
payload or a raw axios-style error.  The axios response interceptor installed
in the constructor is embedded as `intercept`: it converts every raw error
into a plain JavaScript `Error` value carrying only a message string — in
particular the thrown value has no `response` property, which is decisive for
the fallback guards that inspect `error.response?.status`.

Operations that can issue a fallback request return, besides their result,
the ordered list of request URLs they issued, so that request-count and
parameter-preservation properties can be stated.
-/

/-- Kinds of normalized failure in the spec's closed error taxonomy. -/
inductive FailureKind where
  | NotFound
  | BadRequest
  | RateLimited
  | ServerError
  | UnknownHttp
  | NetworkError
deriving DecidableEq

/-- Raw transport error as axios delivers it to the response interceptor:
either an HTTP error response (status code, optional `data.message` field
from the body, and the transport error text `error.message`), or no response
at all (DNS failure, refused connection, timeout). -/
inductive RawError where
  | httpError (status : Nat) (dataMessage : Option String) (message : String)
  | networkError (message : String)
deriving DecidableEq

/-- Response object attached to a raw axios error; only its status is ever
consulted by the client. -/
structure JsResponse where
  status : Nat
deriving DecidableEq

/-- A JavaScript `Error` value as caught by the operations: a message string
and an optional `response` property.  A plain `new Error(msg)` — which is all
the interceptor ever throws — has no `response` property, modelled as
`none`. -/
structure JsError where
  message : String
  response : Option JsResponse
deriving DecidableEq

/-- JS string truthiness fallback `a || b`: an absent or empty string falls
back to `b` (models `error.response.data?.message || error.message`). -/
def jsOrString (a : Option String) (b : String) : String :=
  match a with
  | some s => if s = "" then b else s
  | none => b

/-- Embedding of the response interceptor's rejection handler
(ons-client.ts lines 77–96): maps each raw error to the plain `Error` thrown
to the caller.  The thrown error has no `response` property. -/
def intercept (e : RawError) : JsError :=
  match e with
  | .httpError status dataMessage axiosMessage =>
    let message := jsOrString dataMessage axiosMessage
    if status = 404 then
      { message := "ONS API: Resource not found - " ++ message, response := none }
    else if status = 400 then
      { message := "ONS API: Bad request - " ++ message, response := none }
    else if status = 429 then
      { message := "ONS API: Rate limit exceeded - " ++ message, response := none }
    else if status = 500 then
      { message := "ONS API: Server error - " ++ message, response := none }
    else
      { message := "ONS API: HTTP " ++ toString status ++ " - " ++ message, response := none }
  | .networkError m =>
    { message := "ONS API: Network error - " ++ m, response := none }

/-- One GET through the configured client: the transport oracle resolves the
URL; a failure passes through the interceptor before reaching the
operation. -/
def attemptGet {α : Type} (fetch : String → Except RawError α) (url : String) :
    Except JsError α :=
  match fetch url with
  | .ok d => .ok d
  | .error raw => .error (intercept raw)

/-- URL of a dataset version resource, as built by the template literals in
`getLatestVersion`. -/
def versionUrl (datasetId edition version : String) : String :=
  "/datasets/" ++ datasetId ++ "/editions/" ++ edition ++ "/versions/" ++ version

/-- Embedding of the JS check `error.response?.status === 500`. -/
def responseStatusIs500 (response : Option JsResponse) : Bool :=
  match response with
  | some r => r.status == 500
  | none => false

/-- Embedding of `ONSApiClient.getLatestVersion` (ons-client.ts lines
122–135).  Returns the ordered list of issued request URLs together with the
call's result.  The fallback branch reissues the request with version "6";
its own failure is not caught, so it would propagate as-is. -/
def getLatestVersion {α : Type} (fetch : String → Except RawError α)
    (datasetId edition : String) : List String × Except JsError α :=
  let url := versionUrl datasetId edition "latest"
  match attemptGet fetch url with
  | .ok d => ([url], .ok d)
  | .error e =>
    if responseStatusIs500 e.response then
      let fallbackUrl := versionUrl datasetId edition "6"
      match attemptGet fetch fallbackUrl with
      | .ok d => ([url, fallbackUrl], .ok d)
      | .error e2 => ([url, fallbackUrl], .error e2)
    else ([url], .error e)

/-- Embedding of JavaScript `String.prototype.includes`. -/
def jsIncludes (s pattern : String) : Bool :=
  decide (pattern.data <:+: s.data)

/-- Embedding of JavaScript `String.prototype.toLowerCase` (the data
handled by the client is ASCII): lowercase every character. -/
def jsToLower (s : String) : String :=
  ⟨s.data.map Char.toLower⟩

/-- Query string for dimensions, as built in `getObservations`:
`key=value` pairs joined with an ampersand, values not percent-encoded. -/
def dimensionParams (dimensions : List (String × String)) : String :=
  String.intercalate "&" (dimensions.map (fun kv => kv.1 ++ "=" ++ kv.2))

/-- URL of an observations request, as built by the template literals in
`getObservations`. -/
def observationsUrl (datasetId edition version : String)
    (dimensions : List (String × String)) : String :=
  versionUrl datasetId edition version ++ "/observations?" ++ dimensionParams dimensions

/-- Embedding of the `is500Error` test in `getObservations` (lines 162–163):
`error.response?.status === 500 || (error.message &&
error.message.includes('Server error') && error.message.includes('500'))`. -/
def is500Error (e : JsError) : Bool :=
  responseStatusIs500 e.response ||
    (!(e.message == "") && (jsIncludes e.message "Server error" && jsIncludes e.message "500"))

/-- Embedding of `ONSApiClient.getObservations` (ons-client.ts lines
142–179).  Returns the ordered list of issued request URLs together with the
call's result.  When the fallback request itself fails, the original error is
re-thrown (inner catch, lines 171–174). -/
def getObservations {α : Type} (fetch : String → Except RawError α)
    (datasetId edition version : String) (dimensions : List (String × String)) :
    List String × Except JsError α :=
  let url := observationsUrl datasetId edition version dimensions
  match attemptGet fetch url with
  | .ok d => ([url], .ok d)
  | .error e =>
    if version == "latest" && is500Error e then
      let fallbackUrl := observationsUrl datasetId edition "6" dimensions
      match attemptGet fetch fallbackUrl with
      | .ok d => ([url, fallbackUrl], .ok d)
      | .error _ => ([url, fallbackUrl], .error e)
    else ([url], .error e)

/-- Dimension descriptor carried inside a dataset. -/
structure ONSDimension where
  id : String
  name : String
  label : String
deriving DecidableEq

/-- Dataset snapshot (the fields the verified operations consult). -/
structure ONSDataset where
  id : String
  title : String
  description : String
  state : String
  uri : String
  dimensions : Option (List ONSDimension)
deriving DecidableEq

/-- Paged dataset listing, mirroring `ONSDatasetList`. -/
structure ONSDatasetList where
  count : Nat
  items : List ONSDataset
  limit : Nat
  offset : Nat
  total_count : Nat
deriving DecidableEq

/-- Embedding of `ONSApiClient.listDatasets`: a GET of `/datasets` with
`limit` and `offset` parameters, through the interceptor. -/
def listDatasets (fetchList : Nat → Nat → Except RawError ONSDatasetList)
    (limit offset : Nat) : Except JsError ONSDatasetList :=
  match fetchList limit offset with
  | .ok page => .ok page
  | .error raw => .error (intercept raw)

/-- Embedding of `ONSApiClient.searchDatasets` (ons-client.ts lines
192–210): fetch a page of up to 100 datasets, lowercase the query, keep the
items whose title, description or id includes it, truncate to `limit`, and
rebuild the page record from the truncated list. -/
def searchDatasets (fetchList : Nat → Nat → Except RawError ONSDatasetList)
    (query : String) (limit : Nat) : Except JsError ONSDatasetList :=
  match listDatasets fetchList 100 0 with
  | .error e => .error e
  | .ok allDatasets =>
    let searchTerm := jsToLower query
    let filteredItems :=
      (allDatasets.items.filter (fun dataset =>
        jsIncludes (jsToLower dataset.title) searchTerm ||
        jsIncludes (jsToLower dataset.description) searchTerm ||
        jsIncludes (jsToLower dataset.id) searchTerm)).take limit
    .ok { count := filteredItems.length, items := filteredItems,
          limit := limit, offset := 0, total_count := filteredItems.length }

/-- Embedding of `ONSApiClient.getDataset`. -/
def getDataset (fetch : String → Except RawError ONSDataset) (datasetId : String) :
    Except JsError ONSDataset :=
  attemptGet fetch ("/datasets/" ++ datasetId)

/-- JS `x || []`: an array value — even an empty one — is truthy, so only an
absent field falls back to the empty list. -/
def jsOrList {β : Type} (a : Option (List β)) : List β :=
  a.getD []

/-- Embedding of `ONSApiClient.getDatasetDimensions` (lines 233–236):
fetch the dataset and project `dataset.dimensions || []`. -/
def getDatasetDimensions (fetch : String → Except RawError ONSDataset)
    (datasetId : String) : Except JsError (List ONSDimension) :=
  match getDataset fetch datasetId with
  | .error e => .error e
  | .ok dataset => .ok (jsOrList dataset.dimensions)

/-- Embedding of `ONSApiClient.healthCheck` (lines 249–256): a minimal list
request, any failure collapsed to `false`. -/
def healthCheck {α : Type} (fetch : String → Except RawError α) : Bool :=
  match attemptGet fetch "/datasets?limit=1" with
  | .ok _ => true
  | .error _ => false

/-! ### Specification-side definitions

These definitions follow the spec's words, independently of the code, and
are compared with the embedded operations in the refinement theorems. -/

/-- Status-to-kind table from the spec: 404 maps to NotFound, 400 to
BadRequest, 429 to RateLimited, 500 to ServerError, anything else to
UnknownHttp. -/
def specKindOfStatus (status : Nat) : FailureKind :=
  if status = 404 then .NotFound
  else if status = 400 then .BadRequest
  else if status = 429 then .RateLimited
  else if status = 500 then .ServerError
  else .UnknownHttp

/-- Failure kind of a raw error per the spec: HTTP errors through the status
table, absence of a response as NetworkError. -/
def specKind : RawError → FailureKind
  | .httpError status _ _ => specKindOfStatus status
  | .networkError _ => .NetworkError

/-- Message label that identifies each failure kind in the normalized
message (the UnknownHttp label embeds the offending status). -/
def kindLabel (k : FailureKind) (status : Nat) : String :=
  match k with
  | .NotFound => "ONS API: Resource not found - "
  | .BadRequest => "ONS API: Bad request - "
  | .RateLimited => "ONS API: Rate limit exceeded - "
  | .ServerError => "ONS API: Server error - "
  | .UnknownHttp => "ONS API: HTTP " ++ toString status ++ " - "
  | .NetworkError => "ONS API: Network error - "

/-- Case-insensitive substring containment, per the spec's description of the
client-side search filter. -/
def containsCaseInsensitive (s q : String) : Bool :=
  decide ((jsToLower q).data <:+: (jsToLower s).data)

/-- Spec-side search predicate: the dataset's title, description, or id
contains the query as a case-insensitive substring. -/
def specMatches (q : String) (ds : ONSDataset) : Bool :=
  containsCaseInsensitive ds.title q ||
  containsCaseInsensitive ds.description q ||
  containsCaseInsensitive ds.id q

/-! ### Concrete transport behaviours used as test inputs -/

/-- Transport that answers every request with a plain HTTP 500 carrying the
default axios error text and no body message. -/
def fetch500 : String → Except RawError Unit :=
  fun _ => .error (.httpError 500 none "Request failed with status code 500")

/-- Transport that answers every request with an HTTP 500 whose body message
is a server-provided text that does not contain the substring "500". -/
def fetch500Custom : String → Except RawError Unit :=
  fun _ => .error (.httpError 500 (some "Internal error") "Request failed with status code 500")

/-- Transport that answers every request with a plain HTTP 404. -/
def fetch404 : String → Except RawError Unit :=
  fun _ => .error (.httpError 404 none "Request failed with status code 404")

/-- Transport that answers every request with an HTTP 404 whose
server-provided body message happens to contain the substrings
"Server error" and "500". -/
def fetch404Misleading : String → Except RawError Unit :=
  fun _ => .error (.httpError 404 (some "Server error 500 from upstream") "Request failed with status code 404")

/-- Transport with no reachable server. -/
def fetchDown : String → Except RawError Unit :=
  fun _ => .error (.networkError "connection refused")

/-- Sample dataset titled "CPI Index". -/
def cpiDataset : ONSDataset :=
  { id := "cpih01", title := "CPI Index", description := "Consumer price inflation",
    state := "published", uri := "/datasets/cpih01", dimensions := some [] }

/-- Sample dataset titled "Trade Balance", with no dimensions field. -/
def tradeDataset : ONSDataset :=
  { id := "trade", title := "Trade Balance", description := "UK trade in goods",
    state := "published", uri := "/datasets/trade", dimensions := none }

/-- Sample listing page holding the two sample datasets. -/
def samplePage : ONSDatasetList :=
  { count := 2, items := [cpiDataset, tradeDataset], limit := 100, offset := 0,
    total_count := 2 }

/-- Transport whose dataset listing always returns the sample page. -/
def sampleFetchList : Nat → Nat → Except RawError ONSDatasetList :=
  fun _ _ => .ok samplePage

/-- The page record `searchDatasets` builds for the query "trade" with
limit 10 over the sample page. -/
def sampleSearchResult : ONSDatasetList :=
  { count := 1, items := [tradeDataset], limit := 10, offset := 0, total_count := 1 }

/-- Transport that returns the Trade Balance dataset for any dataset GET. -/
def fetchTradeDataset : String → Except RawError ONSDataset :=
  fun _ => .ok tradeDataset

/-! ### Helper lemmas -/

/-- The interceptor only ever throws a plain `Error`, so the caught value
never carries a `response` property. -/
theorem intercept_response_none (raw : RawError) : (intercept raw).response = none := by
  cases raw with
  | httpError status dataMessage axiosMessage =>
    simp only [intercept]
    split_ifs <;> rfl
  | networkError m => rfl

/-- In `getLatestVersion` the fallback guard `error.response?.status === 500`
inspects a property the interceptor's plain `Error` never has, so the call
always reduces to its single primary attempt. -/
theorem getLatestVersion_eq {α : Type} (fetch : String → Except RawError α)
    (d e : String) :
    getLatestVersion fetch d e =
      ([versionUrl d e "latest"], attemptGet fetch (versionUrl d e "latest")) := by
  cases hf : fetch (versionUrl d e "latest") with
  | ok v => simp [getLatestVersion, attemptGet, hf]
  | error raw =>
    simp [getLatestVersion, attemptGet, hf, responseStatusIs500, intercept_response_none]

/-- When the primary observations request fails and the `is500Error` guard is
false, `getObservations` propagates the normalized failure after a single
request. -/
theorem getObservations_eq_no_fallback {α : Type} (fetch : String → Except RawError α)
    (d e v : String) (dims : List (String × String)) (raw : RawError)
    (hf : fetch (observationsUrl d e v dims) = .error raw)
    (hg : (v == "latest" && is500Error (intercept raw)) = false) :
    getObservations fetch d e v dims =
      ([observationsUrl d e v dims], .error (intercept raw)) := by
  simp [getObservations, attemptGet, hf, hg]

/-- The filter predicate written inline in `searchDatasets` coincides with
the spec-side match predicate. -/
theorem searchFilter_eq_specMatches (q : String) :
    (fun dataset : ONSDataset =>
      jsIncludes (jsToLower dataset.title) (jsToLower q) ||
      jsIncludes (jsToLower dataset.description) (jsToLower q) ||
      jsIncludes (jsToLower dataset.id) (jsToLower q)) = specMatches q := by
  funext ds
  rfl

/-- Closed form of `searchDatasets` on a successfully fetched page: filter by
the spec-side predicate, truncate, and rebuild the page record. -/
theorem searchDatasets_ok (fetchList : Nat → Nat → Except RawError ONSDatasetList)
    (q : String) (limit : Nat) (page : ONSDatasetList)
    (hf : fetchList 100 0 = .ok page) :
    searchDatasets fetchList q limit =
      .ok { count := ((page.items.filter (specMatches q)).take limit).length,
            items := (page.items.filter (specMatches q)).take limit,
            limit := limit, offset := 0,
            total_count := ((page.items.filter (specMatches q)).take limit).length } := by
  unfold searchDatasets listDatasets
  rw [hf]
  rfl

/-! ### Claim theorems -/

/-- C1: the spec demands that a 500 on the "latest" alias in
`getLatestVersion` triggers exactly one fallback request to version "6",
preserving the original failure if the fallback also fails.  The code cannot
do this: the interceptor throws a plain `Error` without a `response`
property, so the guard `error.response?.status === 500` never holds — on an
HTTP 500 for "latest" the call issues no fallback request at all and
propagates the normalized ServerError after its single primary request. -/
theorem getLatestVersion_dead_fallback {α : Type} (fetch : String → Except RawError α)
    (d e : String) (dm : Option String) (am : String)
    (hf : fetch (versionUrl d e "latest") = .error (.httpError 500 dm am)) :
    getLatestVersion fetch d e =
      ([versionUrl d e "latest"], .error (intercept (.httpError 500 dm am))) := by
  rw [getLatestVersion_eq]
  unfold attemptGet
  rw [hf]

/-- Witness for C1: a transport answering plain HTTP 500 leaves
`getLatestVersion` with one issued request and the normalized ServerError. -/
theorem getLatestVersion_dead_fallback_witness :
    getLatestVersion fetch500 "cpih01" "time-series" =
      ([versionUrl "cpih01" "time-series" "latest"],
       .error (intercept (.httpError 500 none "Request failed with status code 500"))) :=
  getLatestVersion_dead_fallback fetch500 "cpih01" "time-series" none
    "Request failed with status code 500" rfl

/-- C4: every failing attempt is delivered past the interceptor as a
normalized failure whose kind follows the fixed status table (404 NotFound,
400 BadRequest, 429 RateLimited, 500 ServerError, any other 4xx/5xx
UnknownHttp, no response NetworkError) and whose embedded message is the
server-provided message field when present (non-empty), else the generic
transport error text. -/
theorem intercept_normalizes :
    (∀ (status : Nat) (dm : Option String) (am : String), 400 ≤ status →
       intercept (.httpError status dm am) =
         { message := kindLabel (specKindOfStatus status) status ++ jsOrString dm am,
           response := none })
    ∧ ∀ m : String, intercept (.networkError m) =
        { message := kindLabel .NetworkError 0 ++ m, response := none } := by
  constructor
  · intro status dm am _
    simp only [intercept, specKindOfStatus]
    split_ifs <;> rfl
  · intro m
    rfl

/-- Witness for C4: a plain 404 is delivered as a NotFound-labelled message
around the transport error text. -/
theorem intercept_normalizes_witness :
    intercept (.httpError 404 none "Request failed with status code 404") =
      { message := kindLabel (specKindOfStatus 404) 404 ++
          jsOrString none "Request failed with status code 404",
        response := none } :=
  intercept_normalizes.1 404 none "Request failed with status code 404" (by decide)

/-- C8: `healthCheck` returns false whenever the minimal list request fails,
whatever the raw failure (hence whatever the normalized kind), and true
whenever it succeeds; the result is a plain boolean, so no failure escapes. -/
theorem healthCheck_collapses_failures {α : Type} (fetch : String → Except RawError α) :
    (∀ raw : RawError, fetch "/datasets?limit=1" = .error raw → healthCheck fetch = false)
    ∧ ∀ d : α, fetch "/datasets?limit=1" = .ok d → healthCheck fetch = true := by
  constructor
  · intro raw hf
    simp [healthCheck, attemptGet, hf]
  · intro d hf
    simp [healthCheck, attemptGet, hf]

/-- Witness for C8: an unreachable server makes `healthCheck` return false. -/
theorem healthCheck_collapses_failures_witness :
    healthCheck fetchDown = false :=
  (healthCheck_collapses_failures fetchDown).1 (.networkError "connection refused") rfl

/-- C9: when the fetched dataset has no dimensions field,
`getDatasetDimensions` returns the empty list rather than a failure; when the
field is present the dimension list is returned as-is. -/
theorem getDatasetDimensions_defaults_empty
    (fetch : String → Except RawError ONSDataset) (datasetId : String)
    (dataset : ONSDataset)
    (hf : fetch ("/datasets/" ++ datasetId) = .ok dataset) :
    (dataset.dimensions = none → getDatasetDimensions fetch datasetId = .ok [])
    ∧ ∀ l, dataset.dimensions = some l → getDatasetDimensions fetch datasetId = .ok l := by
  constructor
  · intro hd
    simp [getDatasetDimensions, getDataset, attemptGet, hf, jsOrList, hd]
  · intro l hd
    simp [getDatasetDimensions, getDataset, attemptGet, hf, jsOrList, hd]

/-- Witness for C9: the Trade Balance sample dataset has no dimensions field
and yields the empty list. -/
theorem getDatasetDimensions_defaults_empty_witness :
    getDatasetDimensions fetchTradeDataset "trade" = .ok [] :=
  (getDatasetDimensions_defaults_empty fetchTradeDataset "trade" tradeDataset rfl).1 rfl

/-- C2: the spec demands a fallback for every ServerError on "latest" in
`getObservations`.  The code detects interceptor-normalized 500s by testing
the message for the substrings "Server error" and "500"; a 500 whose
server-provided body message lacks the substring "500" (here "Internal
error") defeats the test, so no fallback request is issued and the
normalized ServerError propagates after the single primary request —
contradicting the claim and the function's own doc comment. -/
theorem getObservations_misses_500_with_server_message {α : Type}
    (fetch : String → Except RawError α) (d e : String)
    (dims : List (String × String)) (am : String)
    (hf : fetch (observationsUrl d e "latest" dims) =
            .error (.httpError 500 (some "Internal error") am)) :
    getObservations fetch d e "latest" dims =
      ([observationsUrl d e "latest" dims],
       .error { message := "ONS API: Server error - Internal error", response := none }) := by
  have hi : intercept (.httpError 500 (some "Internal error") am) =
      { message := "ONS API: Server error - Internal error", response := none } := rfl
  rw [← hi]
  exact getObservations_eq_no_fallback fetch d e "latest" dims _ hf (by rw [hi]; rfl)

/-- Witness for C2: a 500 with body message "Internal error" leaves
`getObservations` with one issued request and the normalized ServerError. -/
theorem getObservations_misses_500_with_server_message_witness :
    getObservations fetch500Custom "cpih01" "time-series" "latest" [("time", "2019")] =
      ([observationsUrl "cpih01" "time-series" "latest" [("time", "2019")]],
       .error { message := "ONS API: Server error - Internal error", response := none }) :=
  getObservations_misses_500_with_server_message fetch500Custom "cpih01" "time-series"
    [("time", "2019")] "Request failed with status code 500" rfl

/-- C3 counterexample: a 404 — kind NotFound, not ServerError — whose
server-provided body message happens to contain the substrings
"Server error" and "500" makes `getObservations` on version "latest" issue a
second (fallback) request, refuting the claim that no fallback is ever
issued when the failure kind is not ServerError. -/
theorem getObservations_fallback_on_404 :
    specKind (.httpError 404 (some "Server error 500 from upstream")
        "Request failed with status code 404") = .NotFound
    ∧ (getObservations fetch404Misleading "cpih01" "time-series" "latest"
        [("time", "2019")]).1.length = 2 := by
  constructor
  · rfl
  · rfl

/-- C3 amended: `getLatestVersion` never issues a fallback request — every
call consists of exactly one network request whose normalized outcome is the
call's result (regardless of failure kind).  `getObservations` issues no
fallback when the requested version is not "latest", or when the caught
failure's message does not contain the substring "Server error" or does not
contain the substring "500"; in those cases the normalized failure
propagates immediately and exactly one network request is made.  (A failure
of a kind other than ServerError can still trigger the fallback when its
message happens to contain both substrings.) -/
theorem fallback_scope :
    (∀ (α : Type) (fetch : String → Except RawError α) (d e : String),
       (getLatestVersion fetch d e).1 = [versionUrl d e "latest"]
       ∧ (getLatestVersion fetch d e).2 = attemptGet fetch (versionUrl d e "latest"))
    ∧ ∀ (α : Type) (fetch : String → Except RawError α) (d e v : String)
        (dims : List (String × String)) (raw : RawError),
        fetch (observationsUrl d e v dims) = .error raw →
        (v ≠ "latest" ∨ jsIncludes (intercept raw).message "Server error" = false
          ∨ jsIncludes (intercept raw).message "500" = false) →
        getObservations fetch d e v dims
          = ([observationsUrl d e v dims], .error (intercept raw)) := by
  constructor
  · intro α fetch d e
    rw [getLatestVersion_eq]
    exact ⟨rfl, rfl⟩
  · intro α fetch d e v dims raw hf hcond
    apply getObservations_eq_no_fallback fetch d e v dims raw hf
    rcases hcond with hv | hincl | hincl
    · have hb : (v == "latest") = false := beq_eq_false_iff_ne.mpr hv
      simp [hb]
    · simp [is500Error, responseStatusIs500, intercept_response_none, hincl]
    · simp [is500Error, responseStatusIs500, intercept_response_none, hincl]

/-- Witness for C3 amended: a plain 404 on "latest" propagates immediately
with exactly one request issued by `getObservations`. -/
theorem fallback_scope_witness :
    getObservations fetch404 "cpih01" "time-series" "latest" [("time", "2019")] =
      ([observationsUrl "cpih01" "time-series" "latest" [("time", "2019")]],
       .error (intercept (.httpError 404 none "Request failed with status code 404"))) :=
  fallback_scope.2 Unit fetch404 "cpih01" "time-series" "latest" [("time", "2019")]
    (.httpError 404 none "Request failed with status code 404") rfl
    (Or.inr (Or.inl (by decide)))

/-- C5: whenever `getObservations` on version "latest" issues a fallback
request, that request's URL is built from the same dataset id, the same
edition, and the very same serialized dimension query string as the primary
request, with only the version segment changed to "6": the issued trace is
either the primary request alone or the primary followed by exactly that
fallback. -/
theorem getObservations_fallback_preserves_params {α : Type}
    (fetch : String → Except RawError α) (d e : String)
    (dims : List (String × String)) :
    (getObservations fetch d e "latest" dims).1 = [observationsUrl d e "latest" dims]
    ∨ (getObservations fetch d e "latest" dims).1 =
        [observationsUrl d e "latest" dims, observationsUrl d e "6" dims] := by
  cases hf : fetch (observationsUrl d e "latest" dims) with
  | ok v =>
    left
    simp [getObservations, attemptGet, hf]
  | error raw =>
    cases hg : is500Error (intercept raw) with
    | false =>
      left
      simp [getObservations, attemptGet, hf, hg]
    | true =>
      right
      cases h2 : fetch (observationsUrl d e "6" dims) with
      | ok v2 => simp [getObservations, attemptGet, hf, hg, h2]
      | error raw2 => simp [getObservations, attemptGet, hf, hg, h2]

/-- C6: over a successfully fetched page (requested with limit 100),
`searchDatasets` returns exactly the datasets whose title, description, or
id contains the query as a case-insensitive substring, in their original
order, truncated to the first `limit` matches; the result's item count and
its `count` field never exceed the requested limit. -/
theorem searchDatasets_filters (fetchList : Nat → Nat → Except RawError ONSDatasetList)
    (q : String) (limit : Nat) (page : ONSDatasetList)
    (hf : fetchList 100 0 = .ok page) :
    ∃ result, searchDatasets fetchList q limit = .ok result
      ∧ result.items = (page.items.filter (specMatches q)).take limit
      ∧ result.items.length ≤ limit
      ∧ result.count ≤ limit := by
  refine ⟨_, searchDatasets_ok fetchList q limit page hf, rfl, ?_, ?_⟩ <;>
    · show ((page.items.filter (specMatches q)).take limit).length ≤ limit
      rw [List.length_take]
      exact min_le_left _ _

/-- Witness for C6: searching "trade" over the sample page returns only the
dataset titled "Trade Balance". -/
theorem searchDatasets_filters_witness :
    ∃ result, searchDatasets sampleFetchList "trade" 10 = .ok result
      ∧ result.items = (samplePage.items.filter (specMatches "trade")).take 10
      ∧ result.items.length ≤ 10
      ∧ result.count ≤ 10 :=
  searchDatasets_filters sampleFetchList "trade" 10 samplePage rfl

/-- C7: every page record returned successfully by `searchDatasets`
satisfies the DatasetPage invariant: the number of items is at most the
returned `limit`, at most `count`, and `count` is at most `total_count`. -/
theorem searchDatasets_invariant (fetchList : Nat → Nat → Except RawError ONSDatasetList)
    (q : String) (limit : Nat) (result : ONSDatasetList)
    (h : searchDatasets fetchList q limit = .ok result) :
    result.items.length ≤ result.limit
    ∧ result.items.length ≤ result.count
    ∧ result.count ≤ result.total_count := by
  cases hf : fetchList 100 0 with
  | error raw =>
    unfold searchDatasets listDatasets at h
    rw [hf] at h
    exact absurd h (by simp)
  | ok page =>
    rw [searchDatasets_ok fetchList q limit page hf] at h
    injection h with h
    subst h
    refine ⟨?_, le_refl _, le_refl _⟩
    show ((page.items.filter (specMatches q)).take limit).length ≤ limit
    rw [List.length_take]
    exact min_le_left _ _

/-- Witness for C7: the concrete search result for "trade" with limit 10
satisfies the invariant. -/
theorem searchDatasets_invariant_witness :
    sampleSearchResult.items.length ≤ sampleSearchResult.limit
    ∧ sampleSearchResult.items.length ≤ sampleSearchResult.count
    ∧ sampleSearchResult.count ≤ sampleSearchResult.total_count :=
  searchDatasets_invariant sampleFetchList "trade" 10 sampleSearchResult (by rfl)

/-- C10: every page record returned successfully by `searchDatasets` has
offset 0, and both `count` and `total_count` equal the number of matched
items after truncation to the limit (in particular they equal the length of
the returned items, never the size of the fetched collection nor the number
of matches beyond the limit). -/
theorem searchDatasets_page_counters (fetchList : Nat → Nat → Except RawError ONSDatasetList)
    (q : String) (limit : Nat) (page : ONSDatasetList) (result : ONSDatasetList)
    (hf : fetchList 100 0 = .ok page)
    (h : searchDatasets fetchList q limit = .ok result) :
    result.offset = 0
    ∧ result.count = ((page.items.filter (specMatches q)).take limit).length
    ∧ result.total_count = ((page.items.filter (specMatches q)).take limit).length
    ∧ result.count = result.items.length
    ∧ result.total_count = result.items.length := by
  rw [searchDatasets_ok fetchList q limit page hf] at h
  injection h with h
  subst h
  exact ⟨rfl, rfl, rfl, rfl, rfl⟩

/-- Witness for C10: the concrete search result for "trade" with limit 10
has offset 0 and counters equal to its single matched item. -/
theorem searchDatasets_page_counters_witness :
    sampleSearchResult.offset = 0
    ∧ sampleSearchResult.count =
        ((samplePage.items.filter (specMatches "trade")).take 10).length
    ∧ sampleSearchResult.total_count =
        ((samplePage.items.filter (specMatches "trade")).take 10).length
    ∧ sampleSearchResult.count = sampleSearchResult.items.length
    ∧ sampleSearchResult.total_count = sampleSearchResult.items.length :=
  searchDatasets_page_counters sampleFetchList "trade" 10 samplePage sampleSearchResult
    rfl (by rfl)
